import Mathlib

/-!
Verification of the AgriGPT client-side request layer: the session identity
store, the FormData request builders and the axios-style request gateway
with its interceptors, shallowly embedded from
`src/frontend-main/src/api/client.ts` and the API module of
`src/frontend-main/src/components/WeatherHeader.tsx`.
-/

set_option autoImplicit false

namespace AgriGPT

/-! ## JavaScript truthiness helpers

JS `a || b` returns `a` when `a` is truthy, else `b`.  For the values this
code manipulates, falsy means: `undefined`/`null` (modelled by `Option.none`),
the empty string, and the number `0`.
-/

/-- JS `a || b` on strings: the empty string is falsy. -/
def jsOrS (a b : String) : String :=
  if a ≠ "" then a else b

/-- Truthiness of an optional string: `undefined`, `null` and `""` are falsy. -/
def jsFalsyStrOpt : Option String → Bool
  | none => true
  | some s => s == ""

/-- JS `a || b` where `a` is an optional number: `undefined` and `0` are falsy. -/
def jsOrNat : Option Nat → Nat → Nat
  | some n, b => if n ≠ 0 then n else b
  | none, b => b

/-- JS `String.prototype.trim`: drop leading and trailing whitespace. -/
def jsTrim (s : String) : String :=
  String.mk (((s.data.dropWhile Char.isWhitespace).reverse.dropWhile
      Char.isWhitespace).reverse)

/-! ## Base URL (`client.ts`, lines 3-4)

`const API_BASE_URL = import.meta.env.VITE_API_BASE_URL?.trim() || "http://localhost:8000";`
The environment value is `undefined` (modelled `none`) or a string.
-/

/-- The configured base URL as a function of the environment value. -/
def API_BASE_URL (envVar : Option String) : String :=
  match envVar with
  | none => "http://localhost:8000"
  | some s => jsOrS (jsTrim s) "http://localhost:8000"

/-! ## Headers and request configuration -/

/-- A file (binary blob) is opaque to this layer; only its identity matters. -/
structure FileV where
  fileName : String
deriving DecidableEq, Repr

/-- A value appended to a `FormData`: string or blob. -/
inductive FDValue where
  | str (s : String)
  | file (f : FileV)
deriving DecidableEq, Repr

/-- `FormData`: an ordered list of appended (name, value) entries. -/
abbrev FormData := List (String × FDValue)

/-- Look up the first entry appended under a name. -/
def fdLookup (fd : FormData) (k : String) : Option FDValue :=
  (fd.find? (fun p => p.1 == k)).map (·.2)

/-- Whether any entry was appended under a name. -/
def fdHasKey (fd : FormData) (k : String) : Bool :=
  fd.any (fun p => p.1 == k)

/-- HTTP headers as an ordered association list. -/
abbrev Headers := List (String × String)

def hasHeader (hs : Headers) (n : String) : Bool :=
  hs.any (fun p => p.1 == n)

/-- JS `delete headers[n]`. -/
def deleteHeader (hs : Headers) (n : String) : Headers :=
  hs.filter (fun p => p.1 != n)

/-- The body of an outbound request: a `FormData`, some other payload, or none. -/
inductive ReqBody where
  | formData (fd : FormData)
  | jsonBody (s : String)
  | empty
deriving DecidableEq, Repr

/-- `config.data instanceof FormData`. -/
def ReqBody.isFormData : ReqBody → Bool
  | .formData _ => true
  | _ => false

/-- An axios request config as seen by the request interceptor. -/
structure RequestConfig where
  url : String
  method : String
  data : ReqBody
  headers : Headers
deriving DecidableEq, Repr

/-! ## Request interceptor (`client.ts`, lines 12-29)

If the body is a `FormData`, the explicit `Content-Type` header is deleted
so the transport computes the multipart boundary; otherwise the config is
returned unchanged.  (The DEV logging has no effect on the config.)
-/

def requestInterceptor (c : RequestConfig) : RequestConfig :=
  if c.data.isFormData then
    { c with headers := deleteHeader c.headers "Content-Type" }
  else
    c

/-! ## Response envelope, errors and the response interceptor
(`client.ts`, lines 31-52) -/

/-- The canonical successful shape (`ApiResponse` in the source). -/
structure ApiResponse where
  analysis : String
  request_id : Option String
  status : Option String
  input : Option String
deriving DecidableEq, Repr

/-- A successful axios response carrying a decoded `ApiResponse` body. -/
structure AxiosResponseOk where
  status : Nat
  data : ApiResponse
deriving DecidableEq, Repr

/-- The decoded body attached to a failed HTTP response; the server may
supply a `detail` field. -/
structure ErrorData where
  detail : Option String
deriving DecidableEq, Repr

/-- The HTTP response attached to an `AxiosError`, when one exists. -/
structure AxiosErrorResponse where
  status : Nat
  data : Option ErrorData
deriving DecidableEq, Repr

/-- The transport-native error: an optional HTTP response plus a message. -/
structure AxiosError where
  response : Option AxiosErrorResponse
  message : String
deriving DecidableEq, Repr

/-- The canonical failure shape propagated to callers. -/
structure NormalizedError where
  status : Nat
  message : String
deriving DecidableEq, Repr

/-- `error.response?.data?.detail` via optional chaining. -/
def detailOf (e : AxiosError) : Option String :=
  e.response.bind (fun r => r.data.bind (fun d => d.detail))

/-- The failure branch of the response interceptor:
`status: error.response?.status || 500`,
`message: error.response?.data?.detail || error.message || "Unknown API error"`. -/
def normalizeError (e : AxiosError) : NormalizedError :=
  { status := jsOrNat (e.response.map (·.status)) 500
    message :=
      match detailOf e with
      | some d => jsOrS d (jsOrS e.message "Unknown API error")
      | none => jsOrS e.message "Unknown API error" }

/-- The success branch of the response interceptor: `(response) => response`. -/
def responseSuccessInterceptor (r : AxiosResponseOk) : AxiosResponseOk :=
  r

/-! ## The gateway pipeline

A transport maps the (interceptor-transformed) request config to either a
successful response or a transport-native error.  The gateway composes the
request interceptor, the transport and the response interceptors, so a
caller sees `Except NormalizedError AxiosResponseOk`.
-/

inductive TransportResult where
  | success (r : AxiosResponseOk)
  | failure (e : AxiosError)
deriving DecidableEq, Repr

abbrev Transport := RequestConfig → TransportResult

def sendViaGateway (transport : Transport) (c : RequestConfig) :
    Except NormalizedError AxiosResponseOk :=
  match transport (requestInterceptor c) with
  | .success r => .ok (responseSuccessInterceptor r)
  | .failure e => .error (normalizeError e)

/-! ## Session identity store (`WeatherHeader.tsx` API module, lines 149-159) -/

/-- Client-local storage: an association list of key-value entries. -/
structure Storage where
  entries : List (String × String)
deriving DecidableEq, Repr

def Storage.getItem (st : Storage) (k : String) : Option String :=
  (st.entries.find? (fun p => p.1 == k)).map (·.2)

def Storage.setItem (st : Storage) (k : String) (v : String) : Storage :=
  ⟨(k, v) :: st.entries.filter (fun p => p.1 != k)⟩

def SESSION_KEY : String := "agrigpt_session_id"

/-- The ambient sources of nondeterminism used by the id generator:
whether `crypto.randomUUID` exists and what it would return, plus
`Date.now().toString(36)` and `Math.random().toString(36).substr(2)`. -/
structure CryptoApi where
  hasRandomUUID : Bool
  randomUUIDValue : String
deriving DecidableEq, Repr

structure JsEnv where
  crypto : CryptoApi
  dateNowBase36 : String
  mathRandomBase36 : String
deriving DecidableEq, Repr

/-- `crypto.randomUUID ? crypto.randomUUID() : Date.now().toString(36) + Math.random().toString(36).substr(2)`. -/
def generateSessionId (env : JsEnv) : String :=
  if env.crypto.hasRandomUUID then env.crypto.randomUUIDValue
  else env.dateNowBase36 ++ env.mathRandomBase36

/-- `getSessionId`: read the stored id; if falsy (`null` or `""`), generate a
fresh one and persist it under `SESSION_KEY` before returning it. -/
def getSessionId (env : JsEnv) (st : Storage) : String × Storage :=
  let sid0 := st.getItem SESSION_KEY
  if jsFalsyStrOpt sid0 then
    let sid := generateSessionId env
    (sid, st.setItem SESSION_KEY sid)
  else
    (sid0.getD "", st)

/-! ## Request builders (`WeatherHeader.tsx` API module, lines 161-208) -/

/-- `buildFormData`: append `session_id` first, then every payload entry whose
value is neither `undefined` nor `null` (modelled by `some`), in order. -/
def buildFormData (env : JsEnv) (st : Storage)
    (payload : List (String × Option FDValue)) : FormData × Storage :=
  let (sid, st') := getSessionId env st
  (("session_id", FDValue.str sid) ::
      payload.filterMap (fun p => p.2.map (fun v => (p.1, v))), st')

/-- The headers `postFormData` pre-sets on every request. -/
def postFormDataHeaders : Headers :=
  [("Content-Type", "multipart/form-data")]

/-- The request config `postFormData` hands to the gateway. -/
def postFormDataConfig (url : String) (fd : FormData) : RequestConfig :=
  { url := url, method := "post", data := ReqBody.formData fd,
    headers := postFormDataHeaders }

/-- `postFormData`: post the `FormData` through the gateway and return the
decoded body on success. -/
def postFormData (transport : Transport) (url : String) (fd : FormData) :
    Except NormalizedError ApiResponse :=
  (sendViaGateway transport (postFormDataConfig url fd)).map (·.data)

/-- The `FormData` submitted by `askText` (and the updated storage). -/
def askTextSubmission (env : JsEnv) (st : Storage) (query : String) :
    FormData × Storage :=
  buildFormData env st [("query", some (FDValue.str (jsTrim query)))]

/-- `askText`: text-only request to `/ask/text`. -/
def askText (env : JsEnv) (transport : Transport) (st : Storage)
    (query : String) : Except NormalizedError ApiResponse × Storage :=
  let (fd, st') := askTextSubmission env st query
  (postFormData transport "/ask/text" fd, st')

/-- The `FormData` submitted by `askImage` (and the updated storage). -/
def askImageSubmission (env : JsEnv) (st : Storage) (image : FileV) :
    FormData × Storage :=
  buildFormData env st [("file", some (FDValue.file image))]

/-- `askImage`: image-only request to `/ask/image`. -/
def askImage (env : JsEnv) (transport : Transport) (st : Storage)
    (image : FileV) : Except NormalizedError ApiResponse × Storage :=
  let (fd, st') := askImageSubmission env st image
  (postFormData transport "/ask/image" fd, st')

/-- The payload object assembled by `askChat`: `{query}` always, `file` only
when an image was supplied (a `File` object is always truthy). -/
def askChatPayload (query : String) (image : Option FileV) :
    List (String × Option FDValue) :=
  match image with
  | some f => [("query", some (FDValue.str (jsTrim query))),
               ("file", some (FDValue.file f))]
  | none => [("query", some (FDValue.str (jsTrim query)))]

/-- The `FormData` submitted by `askChat` (and the updated storage). -/
def askChatSubmission (env : JsEnv) (st : Storage) (query : String)
    (image : Option FileV) : FormData × Storage :=
  buildFormData env st (askChatPayload query image)

/-- `askChat`: multimodal request to `/ask/chat`. -/
def askChat (env : JsEnv) (transport : Transport) (st : Storage)
    (query : String) (image : Option FileV) :
    Except NormalizedError ApiResponse × Storage :=
  let (fd, st') := askChatSubmission env st query image
  (postFormData transport "/ask/chat" fd, st')

/-! ## Shared lemmas -/

theorem hasHeader_deleteHeader (hs : Headers) (n : String) :
    hasHeader (deleteHeader hs n) n = false := by
  induction hs with
  | nil => rfl
  | cons p t ih =>
    simp only [hasHeader, deleteHeader, List.filter_cons] at ih ⊢
    by_cases h : p.1 == n
    · simp [bne, h, ih]
    · simp [bne, h, ih]

theorem getItem_setItem (st : Storage) (k v : String) :
    (st.setItem k v).getItem k = some v := by
  simp [Storage.setItem, Storage.getItem, List.find?]

/-! ## Claims -/

/-- C10: the configured base-URL environment value is trimmed before the
fallback check, so an unset, empty or whitespace-only value yields the local
default base URL, and otherwise the trimmed value is used. -/
theorem c10_base_url_fallback :
    API_BASE_URL none = "http://localhost:8000"
    ∧ (∀ s : String, jsTrim s = "" → API_BASE_URL (some s) = "http://localhost:8000")
    ∧ (∀ s : String, jsTrim s ≠ "" → API_BASE_URL (some s) = jsTrim s) := by
  refine ⟨rfl, ?_, ?_⟩ <;> intro s h <;> simp [API_BASE_URL, jsOrS, h]

/-- C10 witness: evaluated at the whitespace-only value `"   "` and at `" x "`. -/
theorem c10_base_url_fallback_witness :
    API_BASE_URL (some "   ") = "http://localhost:8000"
    ∧ API_BASE_URL (some " x ") = jsTrim " x " :=
  ⟨c10_base_url_fallback.2.1 "   " (by decide),
   c10_base_url_fallback.2.2 " x " (by decide)⟩

/-- C1 counterexample: the code selects fields by truthiness, not presence.
At the failure whose response has status `0` and whose body carries the
(empty) detail field `""`, the claim demands status `0` and message `""`,
but the code yields status `500` and message `"boom"`. -/
theorem c1_normalized_error_cex :
    normalizeError ⟨some ⟨0, some ⟨some ""⟩⟩, "boom"⟩ = ⟨500, "boom"⟩
    ∧ (normalizeError ⟨some ⟨0, some ⟨some ""⟩⟩, "boom"⟩).status ≠ 0
    ∧ (normalizeError ⟨some ⟨0, some ⟨some ""⟩⟩, "boom"⟩).message ≠ "" := by
  exact ⟨by decide, by decide, by decide⟩

/-- C1 (amended): the value propagated for every intercepted failure is the
Normalized Error where status is the HTTP response status when a response
with a truthy (nonzero) status exists and 500 otherwise, and message is the
server-supplied detail field when the body carries a non-empty one, else the
underlying failure description when non-empty, else "Unknown API error";
the gateway propagates exactly this normalized value, never the native
error. -/
theorem c1_normalized_error (e : AxiosError) :
    (e.response = none → (normalizeError e).status = 500)
    ∧ (∀ r, e.response = some r → r.status ≠ 0 →
        (normalizeError e).status = r.status)
    ∧ (∀ r, e.response = some r → r.status = 0 →
        (normalizeError e).status = 500)
    ∧ (∀ d, detailOf e = some d → d ≠ "" → (normalizeError e).message = d)
    ∧ (jsFalsyStrOpt (detailOf e) = true → e.message ≠ "" →
        (normalizeError e).message = e.message)
    ∧ (jsFalsyStrOpt (detailOf e) = true → e.message = "" →
        (normalizeError e).message = "Unknown API error")
    ∧ (∀ (transport : Transport) (c : RequestConfig),
        transport (requestInterceptor c) = TransportResult.failure e →
        sendViaGateway transport c = Except.error (normalizeError e)) := by
  refine ⟨?_, ?_, ?_, ?_, ?_, ?_, ?_⟩
  · intro h
    simp [normalizeError, h, jsOrNat]
  · intro r hr hs
    simp [normalizeError, hr, jsOrNat, hs]
  · intro r hr hs
    simp [normalizeError, hr, jsOrNat, hs]
  · intro d hd hne
    simp [normalizeError, hd, jsOrS, hne]
  · intro hf hm
    rcases hdo : detailOf e with _ | d
    · simp [normalizeError, hdo, jsOrS, hm]
    · rw [hdo] at hf
      simp only [jsFalsyStrOpt, beq_iff_eq] at hf
      simp [normalizeError, hdo, hf, jsOrS, hm]
  · intro hf hm
    rcases hdo : detailOf e with _ | d
    · simp [normalizeError, hdo, jsOrS, hm]
    · rw [hdo] at hf
      simp only [jsFalsyStrOpt, beq_iff_eq] at hf
      simp [normalizeError, hdo, hf, jsOrS, hm]
  · intro transport c h
    simp [sendViaGateway, h]

/-- C1 witness: a 422 response carrying `detail = "bad image"` normalizes to
status 422, message "bad image"; a response whose status is 0 normalizes to
status 500; a response-less failure normalizes to status 500 with the
failure description. -/
theorem c1_normalized_error_witness :
    (normalizeError ⟨some ⟨422, some ⟨some "bad image"⟩⟩, "failed"⟩).status = 422
    ∧ (normalizeError ⟨some ⟨422, some ⟨some "bad image"⟩⟩, "failed"⟩).message
        = "bad image"
    ∧ (normalizeError ⟨some ⟨0, none⟩, "down"⟩).status = 500
    ∧ (normalizeError ⟨none, "Network Error"⟩).status = 500
    ∧ (normalizeError ⟨none, "Network Error"⟩).message = "Network Error" := by
  refine ⟨(c1_normalized_error _).2.1 _ rfl (by decide),
    (c1_normalized_error _).2.2.2.1 "bad image" (by decide) (by decide),
    (c1_normalized_error _).2.2.1 ⟨0, none⟩ rfl rfl,
    (c1_normalized_error _).1 rfl,
    (c1_normalized_error _).2.2.2.2.1 (by decide) (by decide)⟩

/-- C9: error normalization selects by truthiness, not presence — a present
but empty detail field is skipped in favour of the failure description (or
the fixed fallback when that is empty too), and a response with status `0`
normalizes to status 500. -/
theorem c9_truthiness_selection :
    (∀ (e : AxiosError) (r : AxiosErrorResponse), e.response = some r →
        r.status = 0 → (normalizeError e).status = 500)
    ∧ (∀ (e : AxiosError) (r : AxiosErrorResponse), e.response = some r →
        r.data = some ⟨some ""⟩ → e.message ≠ "" →
        (normalizeError e).message = e.message)
    ∧ (∀ (e : AxiosError) (r : AxiosErrorResponse), e.response = some r →
        r.data = some ⟨some ""⟩ → e.message = "" →
        (normalizeError e).message = "Unknown API error") := by
  refine ⟨?_, ?_, ?_⟩
  · intro e r h hs
    simp [normalizeError, h, jsOrNat, hs]
  · intro e r h hd hm
    simp [normalizeError, detailOf, h, hd, jsOrS, hm]
  · intro e r h hd hm
    simp [normalizeError, detailOf, h, hd, jsOrS, hm]

/-- C9 witness: evaluated at a status-0 response, and at 404 responses whose
body carries `detail = ""` with non-empty and empty failure descriptions. -/
theorem c9_truthiness_selection_witness :
    (normalizeError ⟨some ⟨0, none⟩, "m"⟩).status = 500
    ∧ (normalizeError ⟨some ⟨404, some ⟨some ""⟩⟩, "m"⟩).message = "m"
    ∧ (normalizeError ⟨some ⟨404, some ⟨some ""⟩⟩, ""⟩).message
        = "Unknown API error" := by
  refine ⟨c9_truthiness_selection.1 _ ⟨0, none⟩ rfl rfl,
    c9_truthiness_selection.2.1 _ ⟨404, some ⟨some ""⟩⟩ rfl rfl (by decide),
    c9_truthiness_selection.2.2 _ ⟨404, some ⟨some ""⟩⟩ rfl rfl rfl⟩

/-- C2: the request interceptor removes any explicit Content-Type header from
a multipart (FormData) request — which the builders do pre-set — and leaves
every non-multipart request unchanged. -/
theorem c2_multipart_header_removed :
    (∀ (c : RequestConfig) (fd : FormData), c.data = ReqBody.formData fd →
        hasHeader (requestInterceptor c).headers "Content-Type" = false)
    ∧ (∀ c : RequestConfig, c.data.isFormData = false → requestInterceptor c = c)
    ∧ hasHeader postFormDataHeaders "Content-Type" = true := by
  refine ⟨?_, ?_, rfl⟩
  · intro c fd h
    simp [requestInterceptor, h, ReqBody.isFormData, hasHeader_deleteHeader]
  · intro c h
    simp [requestInterceptor, h]

/-- C2 witness: evaluated at a multipart config carrying the pre-set header
and at a header-carrying GET config with no FormData body. -/
theorem c2_multipart_header_removed_witness :
    hasHeader (requestInterceptor
        ⟨"/ask/chat", "post", ReqBody.formData [], postFormDataHeaders⟩).headers
      "Content-Type" = false
    ∧ requestInterceptor ⟨"/weather/current", "get", ReqBody.empty, [("X-A", "1")]⟩
      = ⟨"/weather/current", "get", ReqBody.empty, [("X-A", "1")]⟩ := by
  refine ⟨c2_multipart_header_removed.1 _ [] rfl,
    c2_multipart_header_removed.2.1 _ rfl⟩

/-- C8: the success branch of the response interceptor is the identity, a
builder returns the decoded body of whatever response the transport yields,
and in particular a text ask answered `analysis = "ok"`, `request_id = "r1"`
returns that object unchanged. -/
theorem c8_round_trip :
    (∀ r : AxiosResponseOk, responseSuccessInterceptor r = r)
    ∧ (∀ (env : JsEnv) (st : Storage) (q : String) (resp : AxiosResponseOk),
        (askText env (fun _ => TransportResult.success resp) st q).1
          = Except.ok resp.data)
    ∧ (askText ⟨⟨true, "u"⟩, "t", "r"⟩
        (fun _ => TransportResult.success ⟨200, ⟨"ok", some "r1", none, none⟩⟩)
        ⟨[]⟩ "hello").1 = Except.ok ⟨"ok", some "r1", none, none⟩ :=
  ⟨fun _ => rfl, fun _ _ _ _ => rfl, rfl⟩

/-- C4 counterexample: a present but empty stored value is not returned
unchanged — the code treats it as absent and regenerates. -/
theorem c4_session_cex :
    Storage.getItem ⟨[("agrigpt_session_id", "")]⟩ SESSION_KEY = some ""
    ∧ (getSessionId ⟨⟨true, "u-42"⟩, "t0", "r0"⟩
        ⟨[("agrigpt_session_id", "")]⟩).1 ≠ "" := by
  exact ⟨by decide, by decide⟩

/-- C4 (amended): two sequential calls to getSessionId return the same
string (given that the generator yields a non-empty id, as both generators
do), and a stored value that is present and non-empty is returned unchanged
with no write; a present but empty value is treated as absent and
regenerated. -/
theorem c4_session_idempotent (env1 env2 : JsEnv) (st : Storage)
    (h : generateSessionId env1 ≠ "") :
    (getSessionId env2 (getSessionId env1 st).2).1 = (getSessionId env1 st).1
    ∧ (∀ v, st.getItem SESSION_KEY = some v → v ≠ "" →
        getSessionId env1 st = (v, st)) := by
  constructor
  · by_cases hf : jsFalsyStrOpt (st.getItem SESSION_KEY)
    · have h1 : getSessionId env1 st
          = (generateSessionId env1,
             st.setItem SESSION_KEY (generateSessionId env1)) := by
        simp [getSessionId, hf]
      rw [h1]
      simp [getSessionId, getItem_setItem, jsFalsyStrOpt, beq_iff_eq, h]
    · have h1 : getSessionId env1 st = ((st.getItem SESSION_KEY).getD "", st) := by
        simp [getSessionId, hf]
      rw [h1]
      simp [getSessionId, hf]
  · intro v hv hne
    simp [getSessionId, hv, jsFalsyStrOpt, beq_iff_eq, hne]

/-- C4 witness: a fresh store gives the same id on both calls even with
fresh ambient randomness in between, and a store holding `"s-1"` returns it
unchanged. -/
theorem c4_session_idempotent_witness :
    (getSessionId ⟨⟨false, ""⟩, "t1", "r1"⟩
        (getSessionId ⟨⟨true, "u-7"⟩, "t0", "r0"⟩ ⟨[]⟩).2).1
      = (getSessionId ⟨⟨true, "u-7"⟩, "t0", "r0"⟩ ⟨[]⟩).1
    ∧ getSessionId ⟨⟨true, "u-7"⟩, "t0", "r0"⟩ ⟨[("agrigpt_session_id", "s-1")]⟩
      = ("s-1", ⟨[("agrigpt_session_id", "s-1")]⟩) := by
  refine ⟨(c4_session_idempotent _ _ _ (by decide)).1,
    (c4_session_idempotent ⟨⟨true, "u-7"⟩, "t0", "r0"⟩ ⟨⟨false, ""⟩, "t1", "r1"⟩
        _ (by decide)).2 "s-1" rfl (by decide)⟩

/-- C5: with no stored id, getSessionId generates one — `crypto.randomUUID`
when available, else timestamp plus pseudo-random suffix — persists it under
the fixed key, and returns exactly the persisted value. -/
theorem c5_session_create (env : JsEnv) (st : Storage)
    (h : st.getItem SESSION_KEY = none) :
    (getSessionId env st).1 = generateSessionId env
    ∧ (getSessionId env st).2.getItem SESSION_KEY = some ((getSessionId env st).1)
    ∧ (env.crypto.hasRandomUUID = true →
        (getSessionId env st).1 = env.crypto.randomUUIDValue)
    ∧ (env.crypto.hasRandomUUID = false →
        (getSessionId env st).1 = env.dateNowBase36 ++ env.mathRandomBase36) := by
  have h1 : getSessionId env st
      = (generateSessionId env,
         st.setItem SESSION_KEY (generateSessionId env)) := by
    simp [getSessionId, h, jsFalsyStrOpt]
  refine ⟨by rw [h1], ?_, ?_, ?_⟩
  · rw [h1]
    exact getItem_setItem st SESSION_KEY (generateSessionId env)
  · intro hc
    rw [h1]
    simp [generateSessionId, hc]
  · intro hc
    rw [h1]
    simp [generateSessionId, hc]

/-- C5 witness: evaluated on an empty store, with and without a secure
random source. -/
theorem c5_session_create_witness :
    (getSessionId ⟨⟨true, "uuid-1"⟩, "t", "r"⟩ ⟨[]⟩).2.getItem SESSION_KEY
      = some ((getSessionId ⟨⟨true, "uuid-1"⟩, "t", "r"⟩ ⟨[]⟩).1)
    ∧ (getSessionId ⟨⟨true, "uuid-1"⟩, "t", "r"⟩ ⟨[]⟩).1 = "uuid-1"
    ∧ (getSessionId ⟨⟨false, "x"⟩, "t", "r"⟩ ⟨[]⟩).1 = "t" ++ "r" := by
  refine ⟨(c5_session_create ⟨⟨true, "uuid-1"⟩, "t", "r"⟩ ⟨[]⟩ rfl).2.1,
    (c5_session_create ⟨⟨true, "uuid-1"⟩, "t", "r"⟩ ⟨[]⟩ rfl).2.2.1 rfl,
    (c5_session_create ⟨⟨false, "x"⟩, "t", "r"⟩ ⟨[]⟩ rfl).2.2.2 rfl⟩

/-- C3: askChat with no image submits a payload whose query field is the
trimmed query and which has no file field; askChat with an image submits
both fields; in particular `askChat "  hello  "` yields `query = "hello"`. -/
theorem c3_chat_payload (env : JsEnv) (st : Storage) (q : String) (f : FileV) :
    fdLookup (askChatSubmission env st q none).1 "query"
      = some (FDValue.str (jsTrim q))
    ∧ fdHasKey (askChatSubmission env st q none).1 "file" = false
    ∧ fdLookup (askChatSubmission env st q (some f)).1 "query"
      = some (FDValue.str (jsTrim q))
    ∧ fdLookup (askChatSubmission env st q (some f)).1 "file"
      = some (FDValue.file f)
    ∧ fdLookup (askChatSubmission env st "  hello  " none).1 "query"
      = some (FDValue.str "hello") :=
  ⟨rfl, rfl, rfl, rfl, rfl⟩

/-- C6: every submitted payload opens with the `session_id` field holding the
stored session identifier, followed by exactly the operation-specific
fields, and any payload entry whose value is absent is skipped. -/
theorem c6_session_field (env : JsEnv) (st : Storage) (q : String) (f : FileV) :
    (askTextSubmission env st q).1
      = [("session_id", FDValue.str (getSessionId env st).1),
         ("query", FDValue.str (jsTrim q))]
    ∧ (askImageSubmission env st f).1
      = [("session_id", FDValue.str (getSessionId env st).1),
         ("file", FDValue.file f)]
    ∧ (askChatSubmission env st q none).1
      = [("session_id", FDValue.str (getSessionId env st).1),
         ("query", FDValue.str (jsTrim q))]
    ∧ (askChatSubmission env st q (some f)).1
      = [("session_id", FDValue.str (getSessionId env st).1),
         ("query", FDValue.str (jsTrim q)), ("file", FDValue.file f)]
    ∧ (∀ (payload : List (String × Option FDValue)) (k : String),
        fdHasKey (buildFormData env st payload).1 k = true →
        k = "session_id" ∨ ∃ v, (k, some v) ∈ payload) := by
  refine ⟨rfl, rfl, rfl, rfl, ?_⟩
  intro payload k h
  simp only [buildFormData, fdHasKey, List.any_cons] at h
  rcases Bool.or_eq_true _ _ |>.mp h with h1 | h2
  · exact Or.inl (beq_iff_eq.mp h1).symm
  · right
    rw [List.any_eq_true] at h2
    obtain ⟨p, hp, hpk⟩ := h2
    rw [List.mem_filterMap] at hp
    obtain ⟨a, ha, hga⟩ := hp
    rw [Option.map_eq_some'] at hga
    obtain ⟨v, hv, hpv⟩ := hga
    subst hpv
    have hk : a.1 = k := beq_iff_eq.mp hpk
    refine ⟨v, ?_⟩
    have hav : a = (k, some v) := by
      rcases a with ⟨a1, a2⟩
      simp only at hk hv
      rw [hk, hv]
    rwa [hav] at ha

/-- C6 witness: an absent-valued entry is skipped, so the only way a key
occurs in the submitted payload is as `session_id` or with a present value. -/
theorem c6_session_field_witness :
    "query" = "session_id"
    ∨ ∃ v, ("query", some v)
        ∈ [("query", some (FDValue.str "q")), ("skip", (none : Option FDValue))] :=
  (c6_session_field ⟨⟨true, "u"⟩, "t", "r"⟩ ⟨[]⟩ "q" ⟨"leaf.png"⟩).2.2.2.2
    [("query", some (FDValue.str "q")), ("skip", none)] "query" (by decide)

/-- C7: an empty or whitespace-only query is still submitted — the query
field is the empty string after trimming and the call goes through to the
transport with no client-side rejection. -/
theorem c7_whitespace_query (env : JsEnv) (st : Storage) (q : String)
    (h : jsTrim q = "") :
    fdLookup (askTextSubmission env st q).1 "query" = some (FDValue.str "")
    ∧ fdLookup (askChatSubmission env st q none).1 "query" = some (FDValue.str "")
    ∧ (∀ resp : AxiosResponseOk,
        (askText env (fun _ => TransportResult.success resp) st q).1
          = Except.ok resp.data
        ∧ (askChat env (fun _ => TransportResult.success resp) st q none).1
          = Except.ok resp.data) := by
  refine ⟨?_, ?_, fun resp => ⟨rfl, rfl⟩⟩
  · have e1 : fdLookup (askTextSubmission env st q).1 "query"
        = some (FDValue.str (jsTrim q)) := rfl
    rw [h] at e1
    exact e1
  · have e2 : fdLookup (askChatSubmission env st q none).1 "query"
        = some (FDValue.str (jsTrim q)) := rfl
    rw [h] at e2
    exact e2

/-- C7 witness: evaluated at the whitespace-only query `"   "`. -/
theorem c7_whitespace_query_witness :
    fdLookup (askTextSubmission ⟨⟨true, "u"⟩, "t", "r"⟩ ⟨[]⟩ "   ").1 "query"
      = some (FDValue.str "")
    ∧ (askChat ⟨⟨true, "u"⟩, "t", "r"⟩
        (fun _ => TransportResult.success ⟨200, ⟨"a", none, none, none⟩⟩)
        ⟨[]⟩ "   " none).1 = Except.ok ⟨"a", none, none, none⟩ := by
  refine ⟨(c7_whitespace_query _ _ _ (by decide)).1,
    ((c7_whitespace_query ⟨⟨true, "u"⟩, "t", "r"⟩ ⟨[]⟩ "   " (by decide)).2.2
      ⟨200, ⟨"a", none, none, none⟩⟩).2⟩

end AgriGPT
